import Mathlib

/-!
Shallow embedding of the platformer core of `src/hello.c` (SDL collision demo).
C `float` values are modelled as exact rationals (`ℚ`), C `int` as `ℤ` (or `ℕ`
for array indices/sizes where the source only ever uses nonnegative values),
and the fixed-capacity C arrays with an explicit element count as Lean lists
whose length is that count.  Fallible array accesses are `Option`-valued:
`none` models an out-of-range read.
-/

/-- SDL_FRect: an axis-aligned rectangle `{x, y, w, h}` (src/hello.c uses
SDL_FRect for player, platforms, lava, collectibles and the goal). -/
structure FRect where
  x : ℚ
  y : ℚ
  w : ℚ
  h : ℚ
deriving DecidableEq

-- Physics constants (src/hello.c lines 19-34)
def SCREEN_WIDTH : ℚ := 1200
def SCREEN_HEIGHT : ℚ := 800
def MAX_PARTICLES : ℕ := 100
def MAX_LEVELS : ℤ := 6
def GRAVITY : ℚ := 1/5
def JUMP_STRENGTH : ℚ := -8
def MOVE_SPEED : ℚ := 5
def MAX_FALL_SPEED : ℚ := 18
def global_time_limit : ℚ := 120

/-- is_colliding (src/hello.c lines 896-899):
`a.x < b.x + b.w && a.x + a.w > b.x && a.y < b.y + b.h && a.y + a.h > b.y`. -/
def is_colliding (a b : FRect) : Bool :=
  decide (a.x < b.x + b.w) && decide (a.x + a.w > b.x) &&
    decide (a.y < b.y + b.h) && decide (a.y + a.h > b.y)

/-- Modelled from the spec (section 4.1, for the refinement claim): the strict
AABB overlap test exactly as the spec writes it. -/
def overlaps_spec (a b : FRect) : Bool :=
  decide (a.x < b.x + b.w) && decide (a.x + a.w > b.x) &&
    decide (a.y < b.y + b.h) && decide (a.y + a.h > b.y)

theorem is_colliding_iff (a b : FRect) :
    is_colliding a b = true ↔
      (a.x < b.x + b.w ∧ b.x < a.x + a.w ∧ a.y < b.y + b.h ∧ b.y < a.y + a.h) := by
  simp [is_colliding, and_assoc]

/-- C5: `is_colliding` is exactly the spec's strict AABB test, edge-sharing
rectangles (`a = {0,0,10,10}`, `b = {10,0,10,10}`) do not overlap, and the
test is symmetric in its arguments. -/
theorem is_colliding_spec (a b : FRect)
    (haw : 0 ≤ a.w) (hah : 0 ≤ a.h) (hbw : 0 ≤ b.w) (hbh : 0 ≤ b.h) :
    is_colliding a b = overlaps_spec a b ∧
    is_colliding a b = is_colliding b a ∧
    is_colliding ⟨0, 0, 10, 10⟩ ⟨10, 0, 10, 10⟩ = false := by
  refine ⟨rfl, ?_, by simp [is_colliding]⟩
  rw [Bool.eq_iff_iff, is_colliding_iff, is_colliding_iff]
  constructor
  · rintro ⟨h1, h2, h3, h4⟩
    exact ⟨h2, h1, h4, h3⟩
  · rintro ⟨h1, h2, h3, h4⟩
    exact ⟨h2, h1, h4, h3⟩

/-- C5 witness: the theorem applied at two concrete rectangles. -/
theorem is_colliding_spec_witness :
    (0:ℚ) ≤ 10 ∧
    (is_colliding ⟨0, 0, 10, 10⟩ ⟨5, 5, 10, 10⟩ =
        overlaps_spec ⟨0, 0, 10, 10⟩ ⟨5, 5, 10, 10⟩ ∧
      is_colliding ⟨0, 0, 10, 10⟩ ⟨5, 5, 10, 10⟩ =
        is_colliding ⟨5, 5, 10, 10⟩ ⟨0, 0, 10, 10⟩ ∧
      is_colliding ⟨0, 0, 10, 10⟩ ⟨10, 0, 10, 10⟩ = false) :=
  ⟨by norm_num,
   is_colliding_spec ⟨0, 0, 10, 10⟩ ⟨5, 5, 10, 10⟩
     (by norm_num) (by norm_num) (by norm_num) (by norm_num)⟩

/-- Particle (src/hello.c lines 69-74): position, velocity, remaining/total
life, RGBA color, active flag.  Uint8 color channels are modelled as ℕ. -/
structure Particle where
  x : ℚ
  y : ℚ
  vx : ℚ
  vy : ℚ
  life : ℚ
  max_life : ℚ
  r : ℕ
  g : ℕ
  b : ℕ
  a : ℕ
  active : Bool
deriving DecidableEq

/-- add_particle (src/hello.c lines 505-522): linear scan for the first
inactive slot; initialize it and stop.  If every slot is active the loop
falls through and nothing changes.  The fixed array `particles[MAX_PARTICLES]`
is modelled as a list of length MAX_PARTICLES. -/
def add_particle (x y vx vy : ℚ) (r g b : ℕ) (life : ℚ) :
    List Particle → List Particle
  | [] => []
  | p :: ps =>
    if p.active then p :: add_particle x y vx vy r g b life ps
    else { p with x := x, y := y, vx := vx, vy := vy, r := r, g := g, b := b,
                  life := life, max_life := life, active := true } :: ps

/-- Number of active slots in a pool. -/
def activeCount (pool : List Particle) : ℕ :=
  pool.countP (fun p => p.active)

theorem activeCount_le_length (pool : List Particle) :
    activeCount pool ≤ pool.length :=
  List.countP_le_length _

theorem add_particle_length (x y vx vy : ℚ) (r g b : ℕ) (life : ℚ)
    (pool : List Particle) :
    (add_particle x y vx vy r g b life pool).length = pool.length := by
  induction pool with
  | nil => rfl
  | cons p ps ih =>
    by_cases hp : p.active = true
    · simp [add_particle, hp, ih]
    · simp [add_particle, hp]

theorem add_particle_of_all_active (x y vx vy : ℚ) (r g b : ℕ) (life : ℚ)
    (pool : List Particle) (hall : ∀ p ∈ pool, p.active = true) :
    add_particle x y vx vy r g b life pool = pool := by
  induction pool with
  | nil => rfl
  | cons p ps ih =>
    have hp : p.active = true := hall p (List.mem_cons_self p ps)
    simp [add_particle, hp, ih fun q hq => hall q (List.mem_cons_of_mem p hq)]

theorem activeCount_add_particle_of_not_full (x y vx vy : ℚ) (r g b : ℕ)
    (life : ℚ) (pool : List Particle) (hlt : activeCount pool < pool.length) :
    activeCount (add_particle x y vx vy r g b life pool) =
      activeCount pool + 1 := by
  induction pool with
  | nil => simp [activeCount] at hlt
  | cons p ps ih =>
    by_cases hp : p.active = true
    · have hlt2 : activeCount ps < ps.length := by
        simpa [activeCount, List.countP_cons, hp] using hlt
      have h2 := ih hlt2
      simp only [activeCount] at h2
      simp [add_particle, hp, activeCount, List.countP_cons, h2]
    · simp [add_particle, hp, activeCount, List.countP_cons]

/-- An all-zero inactive particle: the state of every pool slot after
init_particles (src/hello.c lines 498-503) on a zero-initialized static
array. -/
def particle0 : Particle :=
  { x := 0, y := 0, vx := 0, vy := 0, life := 0, max_life := 0,
    r := 0, g := 0, b := 0, a := 0, active := false }

/-- n consecutive add_particle calls (fixed arguments, no expiry in between)
starting from the freshly initialized 100-slot pool. -/
def spawnN : ℕ → List Particle
  | 0 => List.replicate MAX_PARTICLES particle0
  | n + 1 => add_particle 0 0 0 0 0 0 0 30 (spawnN n)

theorem spawnN_length (n : ℕ) : (spawnN n).length = MAX_PARTICLES := by
  induction n with
  | zero => simp [spawnN]
  | succ n ih => simp [spawnN, add_particle_length, ih]

theorem activeCount_replicate_particle0 (n : ℕ) :
    activeCount (List.replicate n particle0) = 0 := by
  induction n with
  | zero => rfl
  | succ n ih =>
    simp [activeCount, List.replicate, List.countP_cons, particle0, ih]

theorem spawnN_activeCount (n : ℕ) :
    activeCount (spawnN n) = min n MAX_PARTICLES := by
  induction n with
  | zero => simp [spawnN, activeCount_replicate_particle0]
  | succ n ih =>
    by_cases hn : n < MAX_PARTICLES
    · have hlt : activeCount (spawnN n) < (spawnN n).length := by
        rw [ih, spawnN_length]
        omega
      rw [spawnN, activeCount_add_particle_of_not_full _ _ _ _ _ _ _ _ _ hlt, ih]
      omega
    · have hfull : activeCount (spawnN n) = (spawnN n).length := by
        rw [ih, spawnN_length]
        omega
      have hall : ∀ p ∈ spawnN n, p.active = true :=
        List.countP_eq_length.mp hfull
      rw [spawnN, add_particle_of_all_active _ _ _ _ _ _ _ _ _ hall, ih]
      omega

/-- C6: the pool's active count never exceeds the capacity 100: a spawn on a
100-slot pool keeps the active count at most 100; when every slot is active a
spawn leaves the pool entirely unchanged; and 101 consecutive spawns into the
freshly initialized pool (no expiry) leave the active count at exactly 100. -/
theorem particle_pool_bound :
    (∀ (x y vx vy : ℚ) (r g b : ℕ) (life : ℚ) (pool : List Particle),
        pool.length = MAX_PARTICLES →
        activeCount (add_particle x y vx vy r g b life pool) ≤ MAX_PARTICLES) ∧
    (∀ (x y vx vy : ℚ) (r g b : ℕ) (life : ℚ) (pool : List Particle),
        (∀ p ∈ pool, p.active = true) →
        add_particle x y vx vy r g b life pool = pool) ∧
    activeCount (spawnN 101) = 100 := by
  refine ⟨?_, add_particle_of_all_active, ?_⟩
  · intro x y vx vy r g b life pool hlen
    calc activeCount (add_particle x y vx vy r g b life pool)
        ≤ (add_particle x y vx vy r g b life pool).length :=
          activeCount_le_length _
      _ = MAX_PARTICLES := by rw [add_particle_length, hlen]
  · rw [spawnN_activeCount]
    rfl

/-- C6 witness: the first two conjuncts applied at concrete pools. -/
theorem particle_pool_bound_witness :
    activeCount (add_particle 0 0 0 0 0 0 0 30 (List.replicate 100 particle0))
        ≤ MAX_PARTICLES ∧
    add_particle 0 0 0 0 0 0 0 30 [] = [] ∧
    activeCount (spawnN 101) = 100 :=
  ⟨particle_pool_bound.1 0 0 0 0 0 0 0 30 _ (by simp [MAX_PARTICLES]),
   particle_pool_bound.2.1 0 0 0 0 0 0 0 30 [] (by simp),
   particle_pool_bound.2.2⟩

/-- MovingPlatform (src/hello.c lines 90-95): rectangle, velocity, patrol
bounds per axis, direction flag. -/
structure MovingPlatform where
  rect : FRect
  vx : ℚ
  vy : ℚ
  start_x : ℚ
  end_x : ℚ
  start_y : ℚ
  end_y : ℚ
  direction : ℤ
deriving DecidableEq

/-- One platform's update inside update_moving_platforms (src/hello.c lines
864-886): add the velocity to the position on both axes, then for each axis
with nonzero velocity, negate that velocity if the post-move position is at or
beyond either bound. -/
def step_platform (p : MovingPlatform) : MovingPlatform :=
  let r : FRect := { p.rect with x := p.rect.x + p.vx, y := p.rect.y + p.vy }
  let vx2 : ℚ := if p.vx ≠ 0 ∧ (r.x ≤ p.start_x ∨ r.x ≥ p.end_x) then -p.vx else p.vx
  let vy2 : ℚ := if p.vy ≠ 0 ∧ (r.y ≤ p.start_y ∨ r.y ≥ p.end_y) then -p.vy else p.vy
  { p with rect := r, vx := vx2, vy := vy2 }

/-- update_moving_platforms (src/hello.c lines 864-886): every platform in the
session array is stepped independently, in place. -/
def update_moving_platforms (ps : List MovingPlatform) : List MovingPlatform :=
  ps.map step_platform

/-- The concrete platform of the spec's bounce test: x-range [100,200],
vx = +5, currently at x = 198 (no vertical motion). -/
def bounceEx : MovingPlatform :=
  { rect := ⟨198, 0, 100, 20⟩, vx := 5, vy := 0,
    start_x := 100, end_x := 200, start_y := 0, end_y := 0, direction := 1 }

/-- C7: one simulator step moves each axis by its velocity and then negates an
axis's velocity exactly when the post-move position is at or beyond either
bound of that axis; concretely, bounceEx ends at x = 203 with vx = -5. -/
theorem step_platform_bounce (p : MovingPlatform) :
    (step_platform p).rect.x = p.rect.x + p.vx ∧
    (step_platform p).rect.y = p.rect.y + p.vy ∧
    (step_platform p).vx =
      (if p.rect.x + p.vx ≤ p.start_x ∨ p.rect.x + p.vx ≥ p.end_x
        then -p.vx else p.vx) ∧
    (step_platform p).vy =
      (if p.rect.y + p.vy ≤ p.start_y ∨ p.rect.y + p.vy ≥ p.end_y
        then -p.vy else p.vy) ∧
    (step_platform bounceEx).rect.x = 203 ∧ (step_platform bounceEx).vx = -5 := by
  refine ⟨rfl, rfl, ?_, ?_, by norm_num [step_platform, bounceEx],
    by norm_num [step_platform, bounceEx]⟩
  · by_cases hv : p.vx = 0
    · simp [step_platform, hv]
    · simp only [step_platform, hv, ne_eq, not_false_iff, true_and]
  · by_cases hv : p.vy = 0
    · simp [step_platform, hv]
    · simp only [step_platform, hv, ne_eq, not_false_iff, true_and]

/-- C10: one simulator step preserves |vx| and |vy| of every platform in the
array, and an axis with zero velocity never changes position. -/
theorem update_platforms_preserve_speed (ps : List MovingPlatform) (i : ℕ)
    (d : MovingPlatform) (h : i < ps.length) :
    |((update_moving_platforms ps).getD i d).vx| = |(ps.getD i d).vx| ∧
    |((update_moving_platforms ps).getD i d).vy| = |(ps.getD i d).vy| ∧
    ((ps.getD i d).vx = 0 →
      ((update_moving_platforms ps).getD i d).rect.x = (ps.getD i d).rect.x) ∧
    ((ps.getD i d).vy = 0 →
      ((update_moving_platforms ps).getD i d).rect.y = (ps.getD i d).rect.y) := by
  have hm : (update_moving_platforms ps).getD i d = step_platform (ps.getD i d) := by
    have h2 : i < (update_moving_platforms ps).length := by
      simpa [update_moving_platforms] using h
    rw [List.getD_eq_getElem _ _ h2, List.getD_eq_getElem _ _ h]
    simp [update_moving_platforms]
  rw [hm]
  set q := ps.getD i d with hq
  refine ⟨?_, ?_, ?_, ?_⟩
  · by_cases hc : q.vx ≠ 0 ∧ (q.rect.x + q.vx ≤ q.start_x ∨ q.rect.x + q.vx ≥ q.end_x)
    · simp [step_platform, hc, abs_neg]
    · simp [step_platform, hc]
  · by_cases hc : q.vy ≠ 0 ∧ (q.rect.y + q.vy ≤ q.start_y ∨ q.rect.y + q.vy ≥ q.end_y)
    · simp [step_platform, hc, abs_neg]
    · simp [step_platform, hc]
  · intro h0
    simp [step_platform, h0]
  · intro h0
    simp [step_platform, h0]

/-- C10 witness: the theorem applied to a one-element array whose platform has
zero velocity on both axes. -/
theorem update_platforms_preserve_speed_witness :
    |((update_moving_platforms [bounceEx]).getD 0 bounceEx).vx| =
        |([bounceEx].getD 0 bounceEx).vx| ∧
    ((update_moving_platforms
        [{ bounceEx with vx := 0 }]).getD 0 bounceEx).rect.x =
      ([{ bounceEx with vx := 0 }].getD 0 bounceEx).rect.x := by
  refine ⟨(update_platforms_preserve_speed [bounceEx] 0 bounceEx (by norm_num)).1, ?_⟩
  exact (update_platforms_preserve_speed [{ bounceEx with vx := 0 }] 0 bounceEx
    (by norm_num)).2.2.1 rfl

/-- Collectible (src/hello.c lines 79-83). -/
structure Collectible where
  rect : FRect
  collected : Bool
  bob_offset : ℚ
deriving DecidableEq

/-- Level (src/hello.c lines 101-112): static catalog entry.  The C fixed
arrays with companion counts (num_platforms, num_lava, num_collectibles,
num_moving) are modelled as lists of exactly that length.  The struct has no
per-level time field. -/
structure Level where
  platforms : List FRect
  lava_squares : List FRect
  start_pos : FRect
  goal : FRect
  level_collectibles : List Collectible
  level_moving_platforms : List MovingPlatform
deriving DecidableEq

/-- The mutable session globals of src/hello.c (lines 36-98) that the claims
touch: game flags, level index, score, lives, the global countdown timer,
player state, and the per-session collectible / moving-platform copies. -/
structure Session where
  game_over : Bool
  game_won : Bool
  current_level : ℤ
  score : ℤ
  lives : ℤ
  global_timer : ℚ
  player : FRect
  player_vy : ℚ
  player_rotation : ℚ
  is_on_ground : Bool
  coyote_timer : ℤ
  jump_buffer : ℤ
  jump_held : Bool
  has_double_jump : Bool
  double_jump_used : Bool
  invincibility_timer : ℚ
  collectibles : List Collectible
  total_collectibles : ℤ
  collected_count : ℤ
  moving_platforms : List MovingPlatform
deriving DecidableEq

/-- C array read at a C `int` index: `none` models an out-of-range access. -/
def arrGet (l : List α) (i : ℤ) : Option α :=
  if h : 0 ≤ i ∧ i.toNat < l.length then some (l.get ⟨i.toNat, h.2⟩) else none

/-- load_level (src/hello.c lines 772-795).  The only guard in the source is
`if (level_num >= MAX_LEVELS) return;` — there is no lower-bound check, so a
negative index reads `levels[level_num]` out of range (modelled as `none`).
`rng i` models `(float)(rand() % 100) / 100.0f * 6.28f` for collectible i's
bob phase.  Note the function never touches `global_timer`. -/
def load_level (levels : List Level) (level_num : ℤ) (s : Session)
    (rng : ℕ → ℚ) : Option Session :=
  if level_num ≥ MAX_LEVELS then some s
  else
    match arrGet levels level_num with
    | none => none
    | some level =>
      some { s with
        total_collectibles := (level.level_collectibles.length : ℤ),
        collected_count := 0,
        collectibles := level.level_collectibles.enum.map
          (fun ic => { ic.2 with collected := false, bob_offset := rng ic.1 }),
        moving_platforms := level.level_moving_platforms,
        has_double_jump := decide (level_num > 0) }

/-- reset_player (src/hello.c lines 797-812): reads
`levels[current_level].start_pos` and resets the player fields. -/
def reset_player (levels : List Level) (s : Session) : Option Session :=
  match arrGet levels s.current_level with
  | none => none
  | some level =>
    some { s with
      player := ⟨level.start_pos.x, level.start_pos.y, 24, 40⟩,
      player_vy := 0,
      player_rotation := 0,
      is_on_ground := false,
      coyote_timer := 0,
      jump_buffer := 0,
      jump_held := false,
      double_jump_used := false,
      invincibility_timer := 0 }

/-- SDLK_N handler (src/hello.c lines 180-188): while game_won and a next
level exists, advance the level index, clear the won flag, reload the level
and reset the player. -/
def key_n_event (levels : List Level) (rng : ℕ → ℚ) (s : Session) :
    Option Session :=
  if s.game_won = true ∧ s.current_level < MAX_LEVELS - 1 then
    (load_level levels (s.current_level + 1)
      { s with current_level := s.current_level + 1, game_won := false }
      rng).bind (reset_player levels)
  else some s

/-- SDLK_R handler (src/hello.c lines 167-179): after game over or win,
restart from level 0 with lives, score and the global timer reset. -/
def key_r_event (levels : List Level) (rng : ℕ → ℚ) (s : Session) :
    Option Session :=
  if s.game_over = true ∨ s.game_won = true then
    (load_level levels 0
      { s with game_over := false, game_won := false, lives := 3, score := 0,
               current_level := 0, global_timer := global_time_limit }
      rng).bind (reset_player levels)
  else some s

/-- A minimal concrete level (empty geometry) used for concrete evaluations. -/
def levelEx : Level :=
  { platforms := [], lava_squares := [], start_pos := ⟨50, 650, 50, 50⟩,
    goal := ⟨1100, 500, 50, 50⟩, level_collectibles := [],
    level_moving_platforms := [] }

/-- A six-entry level catalog, the length of `levels[MAX_LEVELS]`. -/
def lv6 : List Level := List.replicate 6 levelEx

/-- A fixed bob-phase oracle. -/
def rng0 : ℕ → ℚ := fun _ => 0

/-- A concrete mid-run session: the timer is at 50 of the 120-second budget. -/
def sessionEx : Session :=
  { game_over := false, game_won := false, current_level := 0, score := 0,
    lives := 3, global_timer := 50, player := ⟨0, 0, 24, 40⟩, player_vy := 0,
    player_rotation := 0, is_on_ground := false, coyote_timer := 0,
    jump_buffer := 0, jump_held := false, has_double_jump := false,
    double_jump_used := false, invincibility_timer := 0, collectibles := [],
    total_collectibles := 0, collected_count := 0, moving_platforms := [] }

/-- C2 counterexample: loading level 0 mid-run leaves the countdown timer at
50 — it is not reset to any full time budget (the only time limit in the
program is the global 120-second one, and `Level` has no time field at all). -/
theorem load_level_timer_cex :
    (load_level lv6 0 sessionEx rng0).map Session.global_timer = some 50 ∧
    (50 : ℚ) ≠ global_time_limit := by
  constructor
  · decide
  · decide

/-- C2 amended: load_level never modifies the countdown timer; whenever it
succeeds, the timer of the resulting session equals the timer it was given. -/
theorem load_level_timer_unchanged (levels : List Level) (i : ℤ) (s : Session)
    (rng : ℕ → ℚ) (s2 : Session) (h : load_level levels i s rng = some s2) :
    s2.global_timer = s.global_timer := by
  unfold load_level at h
  by_cases hi : i ≥ MAX_LEVELS
  · rw [if_pos hi] at h
    cases h
    rfl
  · rw [if_neg hi] at h
    cases harr : arrGet levels i with
    | none => rw [harr] at h; cases h
    | some level =>
      rw [harr] at h
      cases h
      rfl

/-- C2 witness: the amended theorem applied to the concrete load above. -/
theorem load_level_timer_unchanged_witness :
    sessionEx.global_timer = sessionEx.global_timer ∧
    load_level lv6 0 sessionEx rng0 = some sessionEx :=
  ⟨load_level_timer_unchanged lv6 0 sessionEx rng0 sessionEx (by decide),
   by decide⟩

/-- C3 counterexample: load_level at index -1 is not a silent no-op — the
upper-bound guard `level_num >= MAX_LEVELS` does not fire, and the function
reads `levels[-1]`, an out-of-range access (modelled as `none`). -/
theorem load_level_neg_cex :
    load_level lv6 (-1) sessionEx rng0 = none ∧
    load_level lv6 (-1) sessionEx rng0 ≠ some sessionEx := by
  constructor
  · decide
  · decide

/-- C3 amended: load_level is a silent no-op only for indices at or above the
level count; a negative index escapes the guard and performs an out-of-range
read of the level array. -/
theorem load_level_bounds (levels : List Level) (i : ℤ) (s : Session)
    (rng : ℕ → ℚ) :
    (MAX_LEVELS ≤ i → load_level levels i s rng = some s) ∧
    (i < 0 → load_level levels i s rng = none) := by
  constructor
  · intro h
    unfold load_level
    rw [if_pos h]
  · intro h
    unfold load_level
    rw [if_neg (by simp [MAX_LEVELS]; omega)]
    have harr : arrGet levels i = none := by
      unfold arrGet
      rw [dif_neg (by omega)]
    rw [harr]

/-- C3 witness: the amended theorem at indices 6 and -1. -/
theorem load_level_bounds_witness :
    load_level lv6 6 sessionEx rng0 = some sessionEx ∧
    load_level lv6 (-1) sessionEx rng0 = none :=
  ⟨(load_level_bounds lv6 6 sessionEx rng0).1 (by decide),
   (load_level_bounds lv6 (-1) sessionEx rng0).2 (by decide)⟩

theorem arrGet_some (l : List α) (i : ℤ) (h0 : 0 ≤ i) (h1 : i.toNat < l.length) :
    arrGet l i = some (l.get ⟨i.toNat, h1⟩) := by
  unfold arrGet
  rw [dif_pos ⟨h0, h1⟩]

/-- C9: the next-level transition increments the level index and reloads the
level-scoped state (collected count back to 0), but leaves score, lives and
the countdown timer untouched; only the restart transition resets the timer
(to the full 120-second budget, together with lives and score). -/
theorem next_level_preserves (levels : List Level) (rng : ℕ → ℚ)
    (s s2 : Session) (hlen : levels.length = 6) (hw : s.game_won = true)
    (h0 : 0 ≤ s.current_level) (hlt : s.current_level < MAX_LEVELS - 1)
    (h2 : s2.game_over = true ∨ s2.game_won = true) :
    (∃ s3, key_n_event levels rng s = some s3 ∧
      s3.current_level = s.current_level + 1 ∧
      s3.collected_count = 0 ∧
      s3.score = s.score ∧
      s3.lives = s.lives ∧
      s3.global_timer = s.global_timer) ∧
    (∃ s4, key_r_event levels rng s2 = some s4 ∧
      s4.global_timer = global_time_limit ∧
      s4.score = 0 ∧
      s4.lives = 3 ∧
      s4.current_level = 0) := by
  have hlt5 : s.current_level < 5 := by
    have := hlt
    simp only [MAX_LEVELS] at this
    omega
  constructor
  · have hn1 : (0:ℤ) ≤ s.current_level + 1 := by omega
    have hn2 : (s.current_level + 1).toNat < levels.length := by
      rw [hlen]
      omega
    unfold key_n_event
    rw [if_pos ⟨hw, hlt⟩]
    unfold load_level
    rw [if_neg (by simp only [MAX_LEVELS, ge_iff_le, not_le]; omega)]
    rw [arrGet_some levels _ hn1 hn2, Option.some_bind]
    unfold reset_player
    rw [arrGet_some levels _ hn1 hn2]
    exact ⟨_, rfl, rfl, rfl, rfl, rfl, rfl⟩
  · have hn2 : (0:ℤ).toNat < levels.length := by
      rw [hlen]
      omega
    unfold key_r_event
    rw [if_pos h2]
    unfold load_level
    rw [if_neg (by simp [MAX_LEVELS])]
    rw [arrGet_some levels 0 le_rfl hn2, Option.some_bind]
    unfold reset_player
    rw [arrGet_some levels 0 le_rfl hn2]
    exact ⟨_, rfl, rfl, rfl, rfl, rfl⟩

/-- C9 witness: the theorem at a concrete mid-run session (score 700, lives 2,
timer 33) that has just won level 0, and a concrete game-over session. -/
theorem next_level_preserves_witness :
    (∃ s3, key_n_event lv6 rng0
        { sessionEx with game_won := true, score := 700, lives := 2,
                         global_timer := 33 } = some s3 ∧
      s3.current_level = 1 ∧
      s3.collected_count = 0 ∧
      s3.score = 700 ∧
      s3.lives = 2 ∧
      s3.global_timer = 33) ∧
    (∃ s4, key_r_event lv6 rng0 { sessionEx with game_over := true } = some s4 ∧
      s4.global_timer = global_time_limit ∧
      s4.score = 0 ∧
      s4.lives = 3 ∧
      s4.current_level = 0) := by
  have h := next_level_preserves lv6 rng0
    { sessionEx with game_won := true, score := 700, lives := 2, global_timer := 33 }
    { sessionEx with game_over := true }
    (by decide) (by decide) (by decide) (by decide) (by decide)
  obtain ⟨⟨s3, h3, hc, hcc, hsc, hli, hti⟩, h4⟩ := h
  exact ⟨⟨s3, h3, by rw [hc]; rfl, hcc, hsc, hli, hti⟩, h4⟩

/-- The goal-collision block of SDL_AppIterate (src/hello.c lines 410-416),
which runs only inside the `!game_over && !game_won` (Alive) branch: on
overlap with the goal, win and score only if every collectible is gathered. -/
def goal_check (goal : FRect) (s : Session) : Session :=
  if is_colliding s.player goal then
    if s.collected_count ≥ s.total_collectibles then
      { s with game_won := true, score := s.score + (1000 + s.lives * 500) }
    else s
  else s

/-- C1: on an Alive frame where the player overlaps the goal, the goal check
leaves the session unchanged when collected_count < total_collectibles, and
otherwise sets the won flag and adds exactly 1000 + lives*500 to the score
(leaving lives, level, timer and the collected counts as they were). -/
theorem goal_check_win_gating (goal : FRect) (s : Session)
    (hover : s.game_over = false) (hwon : s.game_won = false)
    (hhit : is_colliding s.player goal = true) :
    (s.collected_count < s.total_collectibles → goal_check goal s = s) ∧
    (s.total_collectibles ≤ s.collected_count →
      (goal_check goal s).game_won = true ∧
      (goal_check goal s).score = s.score + (1000 + s.lives * 500) ∧
      (goal_check goal s).game_over = s.game_over ∧
      (goal_check goal s).lives = s.lives ∧
      (goal_check goal s).current_level = s.current_level ∧
      (goal_check goal s).global_timer = s.global_timer ∧
      (goal_check goal s).collected_count = s.collected_count ∧
      (goal_check goal s).total_collectibles = s.total_collectibles) := by
  constructor
  · intro hlt
    unfold goal_check
    rw [if_pos hhit, if_neg (not_le.mpr hlt)]
  · intro hge
    unfold goal_check
    rw [if_pos hhit, if_pos hge]
    exact ⟨rfl, rfl, rfl, rfl, rfl, rfl, rfl, rfl⟩

/-- C1 witness: the theorem at a concrete session (all 3 collectibles
gathered, lives 3) overlapping a concrete goal rectangle, with the second
branch discharged. -/
theorem goal_check_win_gating_witness :
    (goal_check ⟨0, 0, 50, 50⟩
      { sessionEx with total_collectibles := 3,
                       collected_count := 3 }).game_won = true ∧
    (goal_check ⟨0, 0, 50, 50⟩
      { sessionEx with total_collectibles := 3, collected_count := 3 }).score =
      0 + (1000 + 3 * 500) := by
  have h := goal_check_win_gating ⟨0, 0, 50, 50⟩
    { sessionEx with total_collectibles := 3, collected_count := 3 }
    rfl rfl (by simp [is_colliding, sessionEx])
  exact ⟨(h.2 (by decide)).1, (h.2 (by decide)).2.1⟩

/-- The horizontal-intent block of SDL_AppIterate (src/hello.c lines 238-255),
inside the Alive branch: two independent if statements, one per direction.
The dust-particle spawns in that block touch only the particle pool, never
`player.x`, and are omitted here. -/
def horizontal_move (left right : Bool) (x : ℚ) : ℚ :=
  let x1 := if left then x - MOVE_SPEED else x
  if right then x1 + MOVE_SPEED else x1

/-- C4 counterexample: at x = 100 with both directions held the frame's
displacement is 0 (the two moves cancel), not double the single-direction
displacement of ±MOVE_SPEED = ±5. -/
theorem horizontal_move_both_cex :
    horizontal_move true true 100 - 100 = 0 ∧
    horizontal_move true false 100 - 100 = -MOVE_SPEED ∧
    horizontal_move false true 100 - 100 = MOVE_SPEED ∧
    (0 : ℚ) ≠ 2 * MOVE_SPEED ∧
    (0 : ℚ) ≠ 2 * (-MOVE_SPEED) := by
  refine ⟨?_, ?_, ?_, ?_, ?_⟩ <;> norm_num [horizontal_move, MOVE_SPEED]

/-- C4 amended: the two direction checks are independent (not mutually
exclusive) and each applies ±MOVE_SPEED, but when both are held the moves
cancel: the net horizontal displacement is zero, not double. -/
theorem horizontal_move_cases (x : ℚ) :
    horizontal_move true true x = x ∧
    horizontal_move true false x = x - MOVE_SPEED ∧
    horizontal_move false true x = x + MOVE_SPEED ∧
    horizontal_move false false x = x := by
  refine ⟨?_, rfl, rfl, rfl⟩
  simp [horizontal_move]

/-- The lava-collision block of SDL_AppIterate (src/hello.c lines 370-395),
inside the Alive branch: skipped entirely while invincible; otherwise scan the
level's hazards in order and stop at the first overlap, losing a life and
either dying (lives exhausted) or respawning at the level's start position
with 120 invincibility frames.  The death-particle burst touches only the
particle pool and is omitted. -/
def lava_scan (start : FRect) : List FRect → Session → Session
  | [], s => s
  | r :: rest, s =>
    if is_colliding s.player r then
      if s.lives - 1 ≤ 0 then
        { s with lives := s.lives - 1, game_over := true }
      else
        { s with lives := s.lives - 1,
                 player := { s.player with x := start.x, y := start.y },
                 player_vy := 0,
                 invincibility_timer := 120 }
    else lava_scan start rest s

def lava_check (start : FRect) (lava : List FRect) (s : Session) : Session :=
  if s.invincibility_timer ≤ 0 then lava_scan start lava s else s

theorem lava_scan_hit (start : FRect) (lava : List FRect) (s : Session)
    (hl : s.lives = 3) (hhit : ∃ r ∈ lava, is_colliding s.player r = true) :
    (lava_scan start lava s).lives = 2 ∧
    (lava_scan start lava s).player.x = start.x ∧
    (lava_scan start lava s).player.y = start.y ∧
    (lava_scan start lava s).player_vy = 0 ∧
    (lava_scan start lava s).invincibility_timer = 120 ∧
    (lava_scan start lava s).game_over = s.game_over := by
  induction lava with
  | nil => simp at hhit
  | cons r rest ih =>
    by_cases hr : is_colliding s.player r = true
    · have hno : ¬(s.lives - 1 ≤ 0) := by omega
      unfold lava_scan
      rw [if_pos hr, if_neg hno]
      refine ⟨show s.lives - 1 = 2 by omega, rfl, rfl, rfl, rfl, rfl⟩
    · have hrest : ∃ q ∈ rest, is_colliding s.player q = true := by
        obtain ⟨q, hq, hcq⟩ := hhit
        rcases List.mem_cons.mp hq with hq0 | hq1
        · exact absurd (hq0 ▸ hcq) hr
        · exact ⟨q, hq1, hcq⟩
      unfold lava_scan
      rw [if_neg hr]
      exact ih hrest

/-- C8: on a frame with lives = 3 and no invincibility where the player
overlaps some hazard rectangle, the hazard scan ends with lives = 2, the
player repositioned to the level's start rectangle, vertical velocity zeroed
and the invincibility timer set to 120 frames; no game-over is triggered
(the scan stops at the first hit). -/
theorem lava_hit_respawn (start : FRect) (lava : List FRect) (s : Session)
    (hinv : s.invincibility_timer = 0) (hl : s.lives = 3)
    (hhit : ∃ r ∈ lava, is_colliding s.player r = true) :
    (lava_check start lava s).lives = 2 ∧
    (lava_check start lava s).player.x = start.x ∧
    (lava_check start lava s).player.y = start.y ∧
    (lava_check start lava s).player_vy = 0 ∧
    (lava_check start lava s).invincibility_timer = 120 ∧
    (lava_check start lava s).game_over = s.game_over := by
  unfold lava_check
  rw [if_pos (le_of_eq hinv)]
  exact lava_scan_hit start lava s hl hhit

/-- C8 witness: the theorem at a concrete session dropped onto a concrete
hazard rectangle. -/
theorem lava_hit_respawn_witness :
    (lava_check ⟨50, 650, 50, 50⟩ [⟨0, 0, 100, 50⟩] sessionEx).lives = 2 ∧
    (lava_check ⟨50, 650, 50, 50⟩ [⟨0, 0, 100, 50⟩] sessionEx).player.x = 50 ∧
    (lava_check ⟨50, 650, 50, 50⟩ [⟨0, 0, 100, 50⟩]
        sessionEx).invincibility_timer = 120 := by
  have h := lava_hit_respawn ⟨50, 650, 50, 50⟩ [⟨0, 0, 100, 50⟩] sessionEx
    rfl rfl ⟨⟨0, 0, 100, 50⟩, List.mem_singleton_self _, by simp [is_colliding, sessionEx]⟩
  exact ⟨h.1, h.2.1, h.2.2.2.2.1⟩
